import Mathlib

/-!
Shallow embedding of the library-recommendation-system client
(TypeScript/React) and proofs about its reading-list workflow,
book-detail add-to-list flow, and API client.

Source files embedded:
- src/src/services/api.ts        (API client; two concatenated snapshots)
- src/src/pages/BookDetail.tsx   (add-to-list flow)
- src/unnamed/part_000           (ReadingLists page component)
- src/src/contexts/AuthContext.tsx (role derivation)

Conventions: asynchronous handlers are modelled as pure functions from
their React state (passed explicitly) and the outcome of any awaited
network/identity call (passed as a parameter) to a result record holding
the new state together with the observable effects (alert shown, network
call issued, modal open/closed).  JavaScript strings are Lean `String`s;
arrays are `List`s; an optional / possibly-`undefined` field is an
`Option`.
-/

namespace LibraryRec

/-- Modelled from the spec: the `Book` record of `@/types` (not under
src/): identifier, title, author, genre, description, cover-image
reference, numeric rating, published year, ISBN.  The identifier is a
string (the client applies `String(book.id)` before comparisons, the
identity on strings). -/
structure Book where
  id : String
  title : String
  author : String
  genre : String
  description : String
  coverImage : String
  rating : Int
  publishedYear : Int
  isbn : String
deriving Repr, DecidableEq

/-- Modelled from the spec: the `ReadingList` record of `@/types` (not
under src/): identifier, name, optional description, set of book
identifiers (as strings), creation/update timestamps. -/
structure ReadingList where
  id : String
  name : String
  description : Option String
  bookIds : List String
  createdAt : String
  updatedAt : String
deriving Repr, DecidableEq

/-- A runtime reading-list object some of whose fields may be absent
(JavaScript `undefined`).  The mock `updateReadingList` can construct
such an object by spreading a non-existent entry (`...existingList!`),
so the value flowing back into the UI mirror is only partially
populated; `id` and `updatedAt` are always set by the mock. -/
structure PartialReadingList where
  id : String
  name : Option String
  description : Option String
  bookIds : Option (List String)
  createdAt : Option String
  updatedAt : String
deriving Repr, DecidableEq

/-- View a fully populated reading list as a runtime object with every
field present (what an untouched mirror entry looks like). -/
def toPartial (l : ReadingList) : PartialReadingList :=
  { id := l.id, name := some l.name, description := l.description,
    bookIds := some l.bookIds, createdAt := some l.createdAt,
    updatedAt := l.updatedAt }

/-- A `Partial<ReadingList>` argument: a field is `none` when the key is
absent from the update object. -/
structure ReadingListPatch where
  name : Option String
  description : Option String
  bookIds : Option (List String)
deriving Repr, DecidableEq

/-- JavaScript `String.prototype.trim()`: drop whitespace from both
ends of the character sequence. -/
def jsTrim (s : String) : String :=
  String.mk (((s.data.dropWhile Char.isWhitespace).reverse.dropWhile
    Char.isWhitespace).reverse)

/-- Helper for `jsSplitComma`: accumulate the current piece (reversed)
while scanning the character list. -/
def splitAux (sep : Char) : List Char → List Char → List String
  | [], acc => [String.mk acc.reverse]
  | c :: rest, acc =>
      if c = sep then String.mk acc.reverse :: splitAux sep rest []
      else splitAux sep rest (c :: acc)

/-- JavaScript `s.split(',')`: the comma-separated pieces of `s`; the
empty string yields the single piece `""`. -/
def jsSplitComma (s : String) : List String := splitAux ',' s.data []

/-! ## API client — src/src/services/api.ts -/

/-- Outcome of `fetchAuthSession()`: either the call throws, or it
returns a session whose `tokens?.idToken?.toString()` chain yields an
optional token string. -/
inductive SessionResult where
  | ok (token : Option String)
  | err
deriving Repr, DecidableEq

/-- Function `getAuthHeaders` (api.ts lines 8–24): starts from a
`Content-Type: application/json` header, tries the session lookup, and
adds `Authorization: Bearer <token>` only when a truthy (present,
non-empty) token came back; every failure of the lookup is swallowed.
Headers are an association list of key/value pairs. -/
def getAuthHeaders (s : SessionResult) : List (String × String) :=
  let headers := [("Content-Type", "application/json")]
  match s with
  | .err => headers
  | .ok none => headers
  | .ok (some token) =>
      if token = "" then headers
      else headers ++ [("Authorization", "Bearer " ++ token)]

/-- A session token is obtainable when the lookup succeeded and produced
a truthy (non-empty) token string. -/
def tokenObtainable : SessionResult → Bool
  | .ok (some t) => t ≠ ""
  | _ => false

/-- Outcome of a `fetch` of a single book: an HTTP response with a
status code and a parsed JSON body (`none` models JSON `null`), or a
rejection (network error). -/
inductive FetchResult where
  | resp (status : Nat) (body : Option Book)
  | networkError
deriving Repr, DecidableEq

/-- Predicate for `response.ok`: status in the range 200–299. -/
def statusOk (s : Nat) : Bool := 200 ≤ s && s < 300

/-- How a `getBook` call terminates: it resolves with a book or `null`,
or it rejects with an error message. -/
inductive GetBookOutcome where
  | ok (b : Option Book)
  | error (msg : String)
deriving Repr, DecidableEq

/-- A `getBook` run: whether a network request was issued, and how the
promise terminated. -/
structure GetBookCall where
  fetched : Bool
  outcome : GetBookOutcome
deriving Repr, DecidableEq

/-- First `getBook` implementation (api.ts lines 70–90): falsy id short-
circuits to `null` with no fetch; otherwise the whole fetch/parse/check
is wrapped in try/catch, and the generic error thrown on a non-ok
response is itself caught, so every failure — 404, any other non-2xx,
or a network error — resolves to `null` (`data || null` maps a `null`
body to `null` as well). -/
def getBookFirst (id : String) (server : FetchResult) : GetBookCall :=
  if id = "" then ⟨false, .ok none⟩
  else
    match server with
    | .networkError => ⟨true, .ok none⟩
    | .resp status body =>
        if statusOk status then ⟨true, .ok body⟩
        else ⟨true, .ok none⟩

/-- Second `getBook` implementation (api.ts lines 420–433): falsy id
short-circuits to `null` with no fetch; HTTP 404 resolves to `null`;
any other non-ok status rejects with the generic
`Failed to fetch book` error; a fetch rejection propagates. -/
def getBook (id : String) (server : FetchResult) : GetBookCall :=
  if id = "" then ⟨false, .ok none⟩
  else
    match server with
    | .networkError => ⟨true, .error "network failure"⟩
    | .resp status body =>
        if status = 404 then ⟨true, .ok none⟩
        else if statusOk status then ⟨true, .ok body⟩
        else ⟨true, .error "Failed to fetch book"⟩

/-- Mock `updateReadingList` (api.ts lines 305–322): looks the id up in
`mockReadingLists` (passed here as a parameter, since mockData.ts is
not under src/), spreads the found entry — or, via the non-null
assertion `existingList!`, spreads an absent one, contributing no
fields — then spreads the patch, then forces `id` and a fresh
`updatedAt`.  The promise always resolves; `now` is the generated
timestamp. -/
def updateReadingList (mockLists : List ReadingList) (now : String)
    (id : String) (patch : ReadingListPatch) : PartialReadingList :=
  let existingList := mockLists.find? (fun l => l.id == id)
  { id := id
    name :=
      match patch.name with
      | some v => some v
      | none => existingList.map (fun l => l.name)
    description :=
      match patch.description with
      | some v => some v
      | none => existingList.bind (fun l => l.description)
    bookIds :=
      match patch.bookIds with
      | some v => some v
      | none => existingList.map (fun l => l.bookIds)
    createdAt := existingList.map (fun l => l.createdAt)
    updatedAt := now }

/-- Observable behaviour of a mock API call that does no real work. -/
structure MockCallResult where
  issuesNetworkRequest : Bool
  delayMs : Nat
  resolves : Bool
deriving Repr, DecidableEq

/-- Mock `deleteReadingList` (api.ts lines 328–333): declared with no
parameters, so any identifier a caller passes is ignored; it issues no
request and resolves unconditionally after a 300 ms timeout.  The
ignored runtime argument is modelled as an explicit parameter the
definition discards. -/
def deleteReadingList (_passedId : String) : MockCallResult :=
  { issuesNetworkRequest := false, delayMs := 300, resolves := true }

/-! ## Role derivation — src/src/contexts/AuthContext.tsx -/

/-- The decoded token's `cognito:groups` claim as the code inspects it:
an array of strings, a plain string, or absent (`undefined`). -/
inductive GroupsClaim where
  | arr (gs : List String)
  | str (s : String)
  | absent
deriving Repr, DecidableEq

/-- Function `getRoleFromSession` (AuthContext.tsx lines 32–46), restricted to
the groups claim it reads from the session: an array claim maps to
`admin` iff it contains `Admins`; a string claim is split on commas and
each piece trimmed before the same membership test; anything else
(absent claim) maps to `user`. -/
def getRoleFromSession (g : GroupsClaim) : String :=
  match g with
  | .arr gs => if gs.contains "Admins" then "admin" else "user"
  | .str s =>
      if ((jsSplitComma s).map (fun p => jsTrim p)).contains "Admins" then "admin"
      else "user"
  | .absent => "user"

/-- The groups named by a claim, the way the code reads them: an array
claim lists them directly, a string claim is comma-separated with each
entry trimmed, an absent claim names none. -/
def groupsOf : GroupsClaim → List String
  | .arr gs => gs
  | .str s => (jsSplitComma s).map (fun p => jsTrim p)
  | .absent => []

/-! ## BookDetail add-to-list flow — src/src/pages/BookDetail.tsx -/

/-- Result of one run of `handleConfirmAddToList`: the alert shown (if
any), whether `updateReadingList` was invoked, the reading-lists
mirror afterwards, and whether the add modal is open afterwards. -/
structure ConfirmResult where
  alertMsg : Option String
  updateCalled : Bool
  lists : List ReadingList
  modalOpen : Bool
deriving Repr, DecidableEq

/-- Handler `handleConfirmAddToList` (BookDetail.tsx lines 83–122) as a function
of the component state (`book`, `selectedListId`, `readingLists`, the
modal flag) and of whether the awaited `updateReadingList` call
succeeds (`updateOk`; the shipped mock always resolves).  Guards, in
source order: no loaded book; falsy (empty) selection; selected list
missing from the mirror; duplicate membership.  On the success path the
mirror entry for every list with the selected identifier gets the
freshly computed `nextBookIds` and the modal closes.  `String(book.id)`
and `bookIds.map(String)` are identities here because identifiers are
already strings, and `Array.isArray(target.bookIds)` always holds of a
`List`. -/
def handleConfirmAddToList (book : Option Book) (selectedListId : String)
    (readingLists : List ReadingList) (modalOpen : Bool)
    (updateOk : Bool) : ConfirmResult :=
  match book with
  | none => ⟨none, false, readingLists, modalOpen⟩
  | some b =>
    if selectedListId = "" then
      ⟨some "Please select a reading list", false, readingLists, modalOpen⟩
    else
      match readingLists.find? (fun l => l.id == selectedListId) with
      | none =>
          ⟨some "Selected reading list not found", false, readingLists, modalOpen⟩
      | some target =>
          let currentIds := target.bookIds
          if currentIds.contains b.id then
            ⟨some "This book is already in the selected reading list.",
              false, readingLists, modalOpen⟩
          else
            let nextBookIds := currentIds ++ [b.id]
            if updateOk then
              ⟨some "Book added to reading list!", true,
                readingLists.map (fun l =>
                  if l.id == selectedListId then { l with bookIds := nextBookIds }
                  else l),
                false⟩
            else
              ⟨none, true, readingLists, modalOpen⟩

/-! ## ReadingLists page — src/unnamed/part_000 -/

/-- Result of one run of `handleCreateList`: the alert shown (if any),
whether `createReadingList` was invoked, the mirror, the create-modal
flag, and the two form fields. -/
structure CreateResult where
  alertMsg : Option String
  createCalled : Bool
  lists : List ReadingList
  createModalOpen : Bool
  nameField : String
  descField : String
deriving Repr, DecidableEq

/-- Handler `handleCreateList` (part_000 lines 48–72): a name that is empty
after trimming aborts with a blocking alert before any network call;
otherwise `createReadingList` is invoked and, on success, its result
(`server = .ok created`) is appended to the mirror, the modal closes
and the form resets; on failure the error is handled and the state is
left as it was. -/
def handleCreateList (newListName newListDescription : String)
    (lists : List ReadingList) (modalOpen : Bool)
    (server : Except String ReadingList) : CreateResult :=
  if jsTrim newListName = "" then
    ⟨some "Please enter a list name", false, lists, modalOpen,
      newListName, newListDescription⟩
  else
    match server with
    | .ok created => ⟨none, true, lists ++ [created], false, "", ""⟩
    | .error _ =>
        ⟨none, true, lists, modalOpen, newListName, newListDescription⟩

/-- Result of one run of `handleUpdateList`: the alert shown (if any),
whether `updateReadingList` was invoked, the mirror afterwards (as
runtime objects, since the mock's reply may be partial), and the
edit-modal flag. -/
structure EditResult where
  alertMsg : Option String
  updateCalled : Bool
  lists : List PartialReadingList
  editModalOpen : Bool
deriving Repr, DecidableEq

/-- Handler `handleUpdateList` (part_000 lines 88–110): no selected list is a
silent no-op; an empty trimmed name aborts with a blocking alert;
otherwise the mock `updateReadingList` is awaited (it always resolves)
with the patch `{name: editName.trim(), description: editDescription}`,
the mirror replaces every entry whose identifier equals the reply's
identifier by the reply, and the edit modal closes. -/
def handleUpdateList (selectedList : Option ReadingList)
    (editName editDescription : String) (lists : List ReadingList)
    (mockLists : List ReadingList) (now : String) : EditResult :=
  match selectedList with
  | none => ⟨none, false, lists.map toPartial, true⟩
  | some sel =>
    if jsTrim editName = "" then
      ⟨some "Please enter a list name", false, lists.map toPartial, true⟩
    else
      let updated := updateReadingList mockLists now sel.id
        ⟨some (jsTrim editName), some editDescription, none⟩
      ⟨none, true,
        lists.map (fun l => if l.id == updated.id then updated else toPartial l),
        false⟩

/-- Result of one run of `handleDeleteList`: whether `deleteReadingList`
was invoked, the mirror afterwards, and the edit-modal flag. -/
structure DeleteResult where
  deleteCalled : Bool
  lists : List ReadingList
  editModalOpen : Bool
deriving Repr, DecidableEq

/-- Handler `handleDeleteList` (part_000 lines 112–129): no selected list is a
silent no-op; declining the blocking `window.confirm` prompt
(`confirmed = false`) aborts; otherwise the mock `deleteReadingList` is
awaited (it always resolves), the mirror keeps exactly the entries
whose identifier differs from the selected list's, and the edit modal
closes. -/
def handleDeleteList (selectedList : Option ReadingList)
    (confirmed : Bool) (lists : List ReadingList) : DeleteResult :=
  match selectedList with
  | none => ⟨false, lists, true⟩
  | some sel =>
    if !confirmed then ⟨false, lists, true⟩
    else ⟨true, lists.filter (fun l => l.id != sel.id), false⟩

/-! ## Concrete sample data for witnesses -/

/-- A sample loaded book. -/
def sampleBook : Book :=
  { id := "7", title := "Dune", author := "Herbert", genre := "SF",
    description := "desc", coverImage := "cover", rating := 4,
    publishedYear := 1965, isbn := "isbn-7" }

/-- A sample reading list with identifier "1" and name "A". -/
def sampleListA : ReadingList :=
  { id := "1", name := "A", description := none, bookIds := ["5"],
    createdAt := "2024-01-01", updatedAt := "2024-01-02" }

/-- A second sample reading list, with a different identifier. -/
def sampleListB : ReadingList :=
  { id := "2", name := "Other", description := some "d", bookIds := ["7"],
    createdAt := "2024-03-01", updatedAt := "2024-03-02" }

/-! ## Theorems -/

/-- C7: `getAuthHeaders` is total over every outcome of the session
lookup (including a throwing lookup) and always yields a header map
with `Content-Type: application/json`; when a session token is
obtainable it additionally carries `Authorization: Bearer <token>`,
and when no token is obtainable the `Authorization` key is absent. -/
theorem getAuthHeaders_total_spec (s : SessionResult) :
    (getAuthHeaders s).lookup "Content-Type" = some "application/json"
    ∧ (∀ t : String, t ≠ "" → s = .ok (some t) →
        (getAuthHeaders s).lookup "Authorization" = some ("Bearer " ++ t))
    ∧ (tokenObtainable s = false →
        (getAuthHeaders s).lookup "Authorization" = none) := by
  cases s with
  | err =>
      refine ⟨rfl, ?_, fun _ => rfl⟩
      intro t ht h
      cases h
  | ok tok =>
      cases tok with
      | none =>
          refine ⟨rfl, ?_, fun _ => rfl⟩
          intro t ht h
          cases h
      | some t =>
          by_cases ht : t = ""
          · subst ht
            refine ⟨by simp [getAuthHeaders, List.lookup], ?_, ?_⟩
            · intro u hu h
              cases h
              exact absurd rfl hu
            · intro _
              simp [getAuthHeaders, List.lookup]
          · refine ⟨?_, ?_, ?_⟩
            · simp [getAuthHeaders, List.lookup, ht]
            · intro u hu h
              cases h
              simp [getAuthHeaders, List.lookup, ht]
            · intro hobt
              exact absurd hobt (by simp [tokenObtainable, ht])

/-- Closed witness for C7 at concrete session outcomes. -/
theorem getAuthHeaders_total_spec_witness :
    (getAuthHeaders (.ok (some "tok"))).lookup "Authorization"
        = some ("Bearer " ++ "tok")
    ∧ (getAuthHeaders .err).lookup "Authorization" = none :=
  ⟨(getAuthHeaders_total_spec (.ok (some "tok"))).2.1 "tok" (by decide) rfl,
    (getAuthHeaders_total_spec .err).2.2 (by decide)⟩

/-- C8: role derivation yields `admin` exactly when the groups claim —
read as a string array directly, or as a comma-separated string with
each entry trimmed — contains a group literally named `Admins`, and
yields `user` in every other case, including an absent claim. -/
theorem getRoleFromSession_admin_iff (g : GroupsClaim) :
    getRoleFromSession g
        = (if (groupsOf g).contains "Admins" then "admin" else "user")
    ∧ (getRoleFromSession g = "admin" ↔ (groupsOf g).contains "Admins" = true)
    ∧ (getRoleFromSession g = "user" ↔ (groupsOf g).contains "Admins" = false)
    ∧ getRoleFromSession .absent = "user" := by
  have h : getRoleFromSession g
      = (if (groupsOf g).contains "Admins" then "admin" else "user") := by
    cases g <;> rfl
  refine ⟨h, ?_, ?_, rfl⟩ <;> rw [h] <;>
    by_cases hc : (groupsOf g).contains "Admins" = true <;> simp [hc]

/-- Closed witness for C8 at concrete claims: an array claim containing
`Admins` maps to admin; a comma-separated string claim with a padded
`Admins` entry maps to admin; an absent claim maps to user. -/
theorem getRoleFromSession_admin_iff_witness :
    getRoleFromSession (.arr ["Users", "Admins"]) = "admin"
    ∧ getRoleFromSession (.str "Other, Admins") = "admin"
    ∧ getRoleFromSession .absent = "user" :=
  ⟨(getRoleFromSession_admin_iff (.arr ["Users", "Admins"])).2.1.mpr
      (by decide),
    (getRoleFromSession_admin_iff (.str "Other, Admins")).2.1.mpr (by decide),
    (getRoleFromSession_admin_iff .absent).2.2.2⟩

/-- C9: the mock `updateReadingList` always resolves, forcing the `id`
field to the argument identifier and `updatedAt` to the freshly
generated timestamp; when no list with that identifier exists in the
mock data the resolved object has no `createdAt`, and its `name` and
`bookIds` are exactly whatever the patch supplied (absent when the
patch omitted them). -/
theorem updateReadingList_forces_id_and_may_lack_fields
    (mockLists : List ReadingList) (now id : String)
    (patch : ReadingListPatch) :
    (updateReadingList mockLists now id patch).id = id
    ∧ (updateReadingList mockLists now id patch).updatedAt = now
    ∧ (mockLists.find? (fun l => l.id == id) = none →
        (updateReadingList mockLists now id patch).createdAt = none
        ∧ (updateReadingList mockLists now id patch).name = patch.name
        ∧ (updateReadingList mockLists now id patch).bookIds = patch.bookIds) := by
  refine ⟨rfl, rfl, fun habsent => ?_⟩
  refine ⟨?_, ?_, ?_⟩ <;>
    simp only [updateReadingList, habsent] <;>
    cases patch <;> simp [ReadingListPatch.name, ReadingListPatch.bookIds] <;>
    rename_i n d b <;> cases n <;> cases b <;> simp

/-- Closed witness for C9: updating identifier "404" against empty mock
data with an empty patch resolves to an object lacking `name`,
`bookIds` and `createdAt`. -/
theorem updateReadingList_forces_id_and_may_lack_fields_witness :
    (updateReadingList [] "2024-05-05T00:00:00Z" "404" ⟨none, none, none⟩).id
        = "404"
    ∧ (updateReadingList [] "2024-05-05T00:00:00Z" "404"
        ⟨none, none, none⟩).createdAt = none
    ∧ (updateReadingList [] "2024-05-05T00:00:00Z" "404"
        ⟨none, none, none⟩).name = none :=
  ⟨(updateReadingList_forces_id_and_may_lack_fields [] "2024-05-05T00:00:00Z"
      "404" ⟨none, none, none⟩).1,
    ((updateReadingList_forces_id_and_may_lack_fields [] "2024-05-05T00:00:00Z"
      "404" ⟨none, none, none⟩).2.2 rfl).1,
    ((updateReadingList_forces_id_and_may_lack_fields [] "2024-05-05T00:00:00Z"
      "404" ⟨none, none, none⟩).2.2 rfl).2.1⟩

/-- C10: the mock `deleteReadingList` ignores whatever identifier a
caller passes, issues no network request, resolves unconditionally, and
waits a fixed 300 ms delay. -/
theorem deleteReadingList_ignores_argument (a b : String) :
    deleteReadingList a = deleteReadingList b
    ∧ (deleteReadingList a).issuesNetworkRequest = false
    ∧ (deleteReadingList a).resolves = true
    ∧ (deleteReadingList a).delayMs = 300 :=
  ⟨rfl, rfl, rfl, rfl⟩

/-- C4: submitting the create-list form with a name that trims to the
empty string raises the blocking alert, never invokes
`createReadingList`, and leaves the list mirror, the open modal and the
form fields exactly as they were — for every possible server outcome. -/
theorem handleCreateList_blank_name_no_call
    (name desc : String) (lists : List ReadingList) (modalOpen : Bool)
    (server : Except String ReadingList) (hblank : jsTrim name = "") :
    handleCreateList name desc lists modalOpen server =
      ⟨some "Please enter a list name", false, lists, modalOpen, name, desc⟩ := by
  simp [handleCreateList, hblank]

/-- Closed witness for C4 at a whitespace-only name. -/
theorem handleCreateList_blank_name_no_call_witness :
    handleCreateList "   " "notes" [sampleListA] true
        (.ok sampleListB) =
      ⟨some "Please enter a list name", false, [sampleListA], true,
        "   ", "notes"⟩ :=
  handleCreateList_blank_name_no_call "   " "notes" [sampleListA] true
    (.ok sampleListB) (by decide)

/-- C2: confirming add-to-list when the loaded book's identifier is
already a member (string-compared) of the selected list's member set
raises the blocking duplicate warning, issues no update call, and
leaves every entry of the mirror and the modal unchanged. -/
theorem handleConfirmAddToList_duplicate_rejected
    (b : Book) (sid : String) (lists : List ReadingList)
    (modalOpen updateOk : Bool) (L : ReadingList)
    (hsid : ¬ sid = "")
    (hfind : lists.find? (fun l => l.id == sid) = some L)
    (hdup : L.bookIds.contains b.id = true) :
    handleConfirmAddToList (some b) sid lists modalOpen updateOk =
      ⟨some "This book is already in the selected reading list.",
        false, lists, modalOpen⟩ := by
  have hdup' : b.id ∈ L.bookIds := by simpa using hdup
  simp [handleConfirmAddToList, hsid, hfind, hdup']

/-- Closed witness for C2: the sample book (identifier "7") is already
in sampleListB's member set. -/
theorem handleConfirmAddToList_duplicate_rejected_witness :
    handleConfirmAddToList (some sampleBook) "2" [sampleListA, sampleListB]
        true true =
      ⟨some "This book is already in the selected reading list.",
        false, [sampleListA, sampleListB], true⟩ :=
  handleConfirmAddToList_duplicate_rejected sampleBook "2"
    [sampleListA, sampleListB] true true sampleListB
    (by decide) (by decide) (by decide)

/-- C6: a confirmed delete of the selected list removes from the mirror
exactly the entries whose identifier equals the selected list's
identifier — every entry with a different identifier is retained
unchanged, in order — and closes the edit modal. -/
theorem handleDeleteList_removes_matching
    (sel : ReadingList) (lists : List ReadingList) :
    (handleDeleteList (some sel) true lists).lists
        = lists.filter (fun l => l.id != sel.id)
    ∧ (∀ l ∈ lists, l.id ≠ sel.id →
        l ∈ (handleDeleteList (some sel) true lists).lists)
    ∧ (∀ l ∈ (handleDeleteList (some sel) true lists).lists,
        l ∈ lists ∧ l.id ≠ sel.id)
    ∧ (handleDeleteList (some sel) true lists).deleteCalled = true
    ∧ (handleDeleteList (some sel) true lists).editModalOpen = false := by
  refine ⟨rfl, ?_, ?_, rfl, rfl⟩
  · intro l hl hne
    simp [handleDeleteList, List.mem_filter, hl, hne]
  · intro l hl
    have hl' : l ∈ lists.filter (fun l => l.id != sel.id) := hl
    simp only [List.mem_filter, bne_iff_ne, ne_eq] at hl'
    exact ⟨hl'.1, hl'.2⟩

/-- Closed witness for C6: deleting sampleListA keeps sampleListB. -/
theorem handleDeleteList_removes_matching_witness :
    sampleListB ∈ (handleDeleteList (some sampleListA) true
        [sampleListA, sampleListB]).lists :=
  (handleDeleteList_removes_matching sampleListA
    [sampleListA, sampleListB]).2.1 sampleListB (by decide) (by decide)

/-- C3 (the failing input, evaluated): with a non-empty identifier and a
backend answering HTTP 500, the first `getBook` implementation (api.ts
lines 70–90) resolves to `null` — its catch swallows the thrown generic
error — contradicting the claim, while the second implementation
(api.ts lines 420–433) rejects with the generic error exactly as the
claim states; both implementations return `null` for the empty
identifier without fetching, and resolve to `null` on HTTP 404. -/
theorem getBook_first_swallows_failures :
    getBookFirst "b1" (.resp 500 none) = ⟨true, .ok none⟩
    ∧ getBook "b1" (.resp 500 none) = ⟨true, .error "Failed to fetch book"⟩
    ∧ getBookFirst "" (.resp 200 none) = ⟨false, .ok none⟩
    ∧ getBook "" (.resp 200 none) = ⟨false, .ok none⟩
    ∧ getBookFirst "404id" (.resp 404 none) = ⟨true, .ok none⟩
    ∧ getBook "404id" (.resp 404 none) = ⟨true, .ok none⟩ := by
  decide

/-- The second `getBook` implementation distinguishes an absent book
from a failed request: for a non-empty identifier, HTTP 404 resolves to
`null` while any other non-2xx status rejects with the generic error. -/
theorem getBook_second_distinguishes (id : String) (status : Nat)
    (body : Option Book) (hid : ¬ id = "") (h404 : ¬ status = 404)
    (hbad : statusOk status = false) :
    getBook id (.resp status body) = ⟨true, .error "Failed to fetch book"⟩ := by
  simp [getBook, hid, h404, hbad]

/-- Closed instance of `getBook_second_distinguishes` at HTTP 503. -/
theorem getBook_second_distinguishes_witness :
    getBook "b1" (.resp 503 none) = ⟨true, .error "Failed to fetch book"⟩ :=
  getBook_second_distinguishes "b1" 503 none (by decide) (by decide) (by decide)

/-- C1: a successful add-to-list confirmation for a book not yet in the
selected list L replaces L's member set in the mirror by the prior set
plus exactly the one new identifier — no member is removed, the new set
is the prior set together with the book's identifier, its length grows
by one, and it is duplicate-free whenever the prior set was — while
every list with a different identifier is unchanged at its position,
and the modal closes. -/
theorem handleConfirmAddToList_success
    (b : Book) (sid : String) (lists : List ReadingList) (modalOpen : Bool)
    (L : ReadingList)
    (hsid : ¬ sid = "")
    (hfind : lists.find? (fun l => l.id == sid) = some L)
    (hnew : L.bookIds.contains b.id = false) :
    handleConfirmAddToList (some b) sid lists modalOpen true =
      ⟨some "Book added to reading list!", true,
        lists.map (fun l =>
          if l.id == sid then { l with bookIds := L.bookIds ++ [b.id] }
          else l),
        false⟩
    ∧ { L with bookIds := L.bookIds ++ [b.id] }
        ∈ (handleConfirmAddToList (some b) sid lists modalOpen true).lists
    ∧ (∀ x ∈ L.bookIds, x ∈ L.bookIds ++ [b.id])
    ∧ b.id ∈ L.bookIds ++ [b.id]
    ∧ (L.bookIds ++ [b.id]).length = L.bookIds.length + 1
    ∧ (∀ x ∈ L.bookIds ++ [b.id], x ∈ L.bookIds ∨ x = b.id)
    ∧ (L.bookIds.Nodup → (L.bookIds ++ [b.id]).Nodup)
    ∧ (∀ i : Nat, ∀ h : i < lists.length,
        (lists.get ⟨i, h⟩).id ≠ sid →
          (handleConfirmAddToList (some b) sid lists modalOpen true).lists[i]?
            = some (lists.get ⟨i, h⟩)) := by
  have hnotmem : b.id ∉ L.bookIds := by simpa using hnew
  have hkey : handleConfirmAddToList (some b) sid lists modalOpen true =
      ⟨some "Book added to reading list!", true,
        lists.map (fun l =>
          if l.id == sid then { l with bookIds := L.bookIds ++ [b.id] }
          else l),
        false⟩ := by
    simp [handleConfirmAddToList, hsid, hfind, hnotmem]
  have hLmem : L ∈ lists := List.mem_of_find?_eq_some hfind
  have hLid : (L.id == sid) = true := by
    simpa using List.find?_some hfind
  refine ⟨hkey, ?_, ?_, ?_, ?_, ?_, ?_, ?_⟩
  · rw [hkey]
    have himg :
        (fun l => if l.id == sid then { l with bookIds := L.bookIds ++ [b.id] }
          else l) L = { L with bookIds := L.bookIds ++ [b.id] } := by
      simp [hLid]
    exact himg ▸ List.mem_map_of_mem _ hLmem
  · intro x hx
    exact List.mem_append_left _ hx
  · exact List.mem_append_right _ (List.mem_singleton.mpr rfl)
  · simp
  · intro x hx
    rcases List.mem_append.mp hx with hx | hx
    · exact Or.inl hx
    · exact Or.inr (List.mem_singleton.mp hx)
  · intro hnd
    refine List.nodup_append.mpr ⟨hnd, List.nodup_singleton _, ?_⟩
    intro a ha hb
    rw [List.mem_singleton.mp hb] at ha
    exact hnotmem ha
  · intro i h hne
    rw [hkey]
    simp only [List.getElem?_map]
    rw [List.getElem?_eq_getElem h]
    have hne' : ¬ lists[i].id = sid := by
      simpa using hne
    simp [hne', List.get_eq_getElem]

/-- Closed witness for C1: adding the sample book (identifier "7") to
sampleListA (member set ["5"]). -/
theorem handleConfirmAddToList_success_witness :
    handleConfirmAddToList (some sampleBook) "1" [sampleListA, sampleListB]
        true true =
      ⟨some "Book added to reading list!", true,
        [sampleListA, sampleListB].map (fun l =>
          if l.id == "1" then
            { l with bookIds := sampleListA.bookIds ++ [sampleBook.id] }
          else l),
        false⟩ :=
  (handleConfirmAddToList_success sampleBook "1" [sampleListA, sampleListB]
    true sampleListA (by decide) (by decide) (by decide)).1

/-- C5: with the entry of identifier "1" (name "A") selected for
editing, submitting name "B" yields a mirror of the same length whose
entry at every identifier-"1" position has name "B" and identifier "1",
while every entry with a different identifier is exactly as it was
(every field unchanged); the update call is issued and the edit modal
closes. -/
theorem handleUpdateList_renames_entry
    (sel : ReadingList) (desc : String) (lists mockLists : List ReadingList)
    (now : String) (hmem : sel ∈ lists) (hid : sel.id = "1")
    (hname : sel.name = "A") :
    (handleUpdateList (some sel) "B" desc lists mockLists now).lists.length
        = lists.length
    ∧ (∀ i : Nat, ∀ h : i < lists.length,
        ((lists.get ⟨i, h⟩).id = "1" →
          (handleUpdateList (some sel) "B" desc lists mockLists now).lists[i]?
            = some (updateReadingList mockLists now "1"
                ⟨some "B", some desc, none⟩)
          ∧ (updateReadingList mockLists now "1"
              ⟨some "B", some desc, none⟩).name = some "B"
          ∧ (updateReadingList mockLists now "1"
              ⟨some "B", some desc, none⟩).id = "1")
        ∧ ((lists.get ⟨i, h⟩).id ≠ "1" →
          (handleUpdateList (some sel) "B" desc lists mockLists now).lists[i]?
            = some (toPartial (lists.get ⟨i, h⟩))))
    ∧ (handleUpdateList (some sel) "B" desc lists mockLists now).editModalOpen
        = false
    ∧ (handleUpdateList (some sel) "B" desc lists mockLists now).updateCalled
        = true := by
  have hBtrim : jsTrim "B" = "B" := by decide
  have hBne : ¬ jsTrim "B" = "" := by decide
  have hkey : handleUpdateList (some sel) "B" desc lists mockLists now =
      ⟨none, true,
        lists.map (fun l =>
          if l.id == "1" then
            updateReadingList mockLists now "1" ⟨some "B", some desc, none⟩
          else toPartial l),
        false⟩ := by
    simp [handleUpdateList, updateReadingList, hBne, hBtrim, hid]
  refine ⟨by rw [hkey]; simp, ?_, by rw [hkey], by rw [hkey]⟩
  intro i h
  constructor
  · intro hmatch
    refine ⟨?_, rfl, rfl⟩
    rw [hkey]
    simp only [List.getElem?_map]
    rw [List.getElem?_eq_getElem h]
    have hmatch' : lists[i].id = "1" := by
      simpa using hmatch
    simp [hmatch']
  · intro hne
    rw [hkey]
    simp only [List.getElem?_map]
    rw [List.getElem?_eq_getElem h]
    have hne' : ¬ lists[i].id = "1" := by
      simpa using hne
    simp [hne', List.get_eq_getElem]

/-- Closed witness for C5: renaming sampleListA (identifier "1", name
"A") to "B" in a two-entry mirror keeps the length and closes the edit
modal. -/
theorem handleUpdateList_renames_entry_witness :
    (handleUpdateList (some sampleListA) "B" "d" [sampleListA, sampleListB]
        [] "T").lists.length = 2
    ∧ (handleUpdateList (some sampleListA) "B" "d" [sampleListA, sampleListB]
        [] "T").editModalOpen = false :=
  ⟨(handleUpdateList_renames_entry sampleListA "d" [sampleListA, sampleListB]
      [] "T" (by decide) (by decide) (by decide)).1,
    (handleUpdateList_renames_entry sampleListA "d" [sampleListA, sampleListB]
      [] "T" (by decide) (by decide) (by decide)).2.2.1⟩

end LibraryRec
